import Mathlib

/-!
Verification of the `uptime_agent` Python package (repository Uptimebot)
against its natural-language specification.

The Python modules are shallowly embedded:
* `models.py` — `CheckStatus`, `UptimeCheck`, `UptimeStats` and its `update`,
  and the `to_dict` / `from_dict` serialization pair;
* `http_client.py` — `UptimeHTTPClient.check_url` and the retry-adapter
  configuration;
* `scheduler.py` — `UptimeScheduler`'s job table and `add_job`, `remove_job`,
  `_execute_job`.

Python `float` is modelled as `ℚ` (the programs only add, multiply and
divide), Python `int` as `Int` or `Nat`, Python dictionaries used as records
with string keys as association lists `List (String × PyValue)`, and the
job table (keyed by `job_id`) as a partial map `String → Option Job`.
Effects of external libraries (`requests`, `schedule`, `datetime`) are
modelled at their interface: the outcome of an HTTP request is a parameter
of `check_url`, wall-clock readings are parameters, and `datetime` values
are an abstract component structure.
-/

namespace Uptimebot

/-- Matches `class CheckStatus(Enum)` in `models.py`: the four statuses of an
uptime check, with their string `.value`s given by `statusValue`. -/
inductive CheckStatus where
  | SUCCESS
  | FAILED
  | TIMEOUT
  | ERROR
deriving DecidableEq

/-- The `.value` of each `CheckStatus` member, as assigned in `models.py`. -/
def statusValue : CheckStatus → String
  | .SUCCESS => "success"
  | .FAILED => "failed"
  | .TIMEOUT => "timeout"
  | .ERROR => "error"

/-- Matches the enum constructor call `CheckStatus(value)` in Python, which
raises `ValueError` for a string that is no member's value; modelled as
`Option`. -/
def checkStatusOfValue : String → Option CheckStatus :=
  fun s =>
    if s = "success" then some .SUCCESS
    else if s = "failed" then some .FAILED
    else if s = "timeout" then some .TIMEOUT
    else if s = "error" then some .ERROR
    else none

/-- Model of a Python `datetime.datetime` value by its components.  Only
equality of datetimes matters to the claims under study. -/
structure Datetime where
  year : Nat
  month : Nat
  day : Nat
  hour : Nat
  minute : Nat
  second : Nat
  microsecond : Nat
deriving DecidableEq

/-- Matches `@dataclass class UptimeCheck` in `models.py`: one uptime check
result.  `response_time` (Python `Optional[float]`) is `Option ℚ`. -/
structure UptimeCheck where
  url : String
  status : CheckStatus
  status_code : Option Int := none
  response_time : Option ℚ := none
  error_message : Option String := none
  timestamp : Datetime
  retry_count : Int := 0
deriving DecidableEq

/-- Matches `@dataclass class UptimeStats` in `models.py`: the per-target
rolling aggregate.  Counters are `Nat`, the float fields are `ℚ`. -/
structure UptimeStats where
  url : String
  total_checks : Nat := 0
  successful_checks : Nat := 0
  failed_checks : Nat := 0
  average_response_time : ℚ := 0
  uptime_percentage : ℚ := 0
  last_check : Option Datetime := none
  last_success : Option Datetime := none
  last_failure : Option Datetime := none
deriving DecidableEq

/-- A fresh `UptimeStats(url)` as the dataclass defaults construct it. -/
def UptimeStats.fresh (url : String) : UptimeStats :=
  { url := url }

/-- Matches `UptimeStats.update` in `models.py`, line by line:
increment `total_checks` and set `last_check`; then bump exactly one of
`successful_checks` / `failed_checks` according to
`check.status == CheckStatus.SUCCESS`; then, when
`check.response_time is not None`, either initialize the average (when the
stored average equals `0.0`) or apply
`(avg * (total_checks - 1) + response_time) / total_checks` with the already
incremented `total_checks`; finally recompute `uptime_percentage` as
`(successful_checks / total_checks) * 100` when `total_checks > 0`. -/
def UptimeStats.update (s : UptimeStats) (check : UptimeCheck) : UptimeStats :=
  let s1 : UptimeStats :=
    { s with total_checks := s.total_checks + 1, last_check := some check.timestamp }
  let s2 : UptimeStats :=
    if check.status = CheckStatus.SUCCESS then
      { s1 with successful_checks := s1.successful_checks + 1,
                last_success := some check.timestamp }
    else
      { s1 with failed_checks := s1.failed_checks + 1,
                last_failure := some check.timestamp }
  let s3 : UptimeStats :=
    match check.response_time with
    | some rt =>
        if s2.average_response_time = 0 then
          { s2 with average_response_time := rt }
        else
          { s2 with average_response_time :=
              (s2.average_response_time * ((s2.total_checks : ℚ) - 1) + rt)
                / (s2.total_checks : ℚ) }
    | none => s2
  if 0 < s3.total_checks then
    { s3 with uptime_percentage :=
        ((s3.successful_checks : ℚ) / (s3.total_checks : ℚ)) * 100 }
  else s3

theorem update_total (s : UptimeStats) (c : UptimeCheck) :
    (s.update c).total_checks = s.total_checks + 1 := by
  unfold UptimeStats.update
  by_cases hst : c.status = CheckStatus.SUCCESS <;>
    cases hrt : c.response_time <;>
      simp [hst, hrt] <;> split <;> simp

theorem update_successful (s : UptimeStats) (c : UptimeCheck) :
    (s.update c).successful_checks =
      s.successful_checks + (if c.status = CheckStatus.SUCCESS then 1 else 0) := by
  unfold UptimeStats.update
  by_cases hst : c.status = CheckStatus.SUCCESS <;>
    cases hrt : c.response_time <;>
      simp [hst, hrt] <;> split <;> simp

theorem update_failed (s : UptimeStats) (c : UptimeCheck) :
    (s.update c).failed_checks =
      s.failed_checks + (if c.status = CheckStatus.SUCCESS then 0 else 1) := by
  unfold UptimeStats.update
  by_cases hst : c.status = CheckStatus.SUCCESS <;>
    cases hrt : c.response_time <;>
      simp [hst, hrt] <;> split <;> simp

theorem foldl_update_total_eq (url : String) (checks : List UptimeCheck) :
    (checks.foldl UptimeStats.update (UptimeStats.fresh url)).total_checks =
      (checks.foldl UptimeStats.update (UptimeStats.fresh url)).successful_checks +
        (checks.foldl UptimeStats.update (UptimeStats.fresh url)).failed_checks := by
  suffices h : ∀ (l : List UptimeCheck) (s : UptimeStats),
      s.total_checks = s.successful_checks + s.failed_checks →
      (l.foldl UptimeStats.update s).total_checks =
        (l.foldl UptimeStats.update s).successful_checks +
          (l.foldl UptimeStats.update s).failed_checks by
    exact h checks (UptimeStats.fresh url) rfl
  intro l
  induction l with
  | nil => intro s hs; simpa using hs
  | cons c tl ih =>
      intro s hs
      refine ih (s.update c) ?_
      rw [update_total, update_successful, update_failed, hs]
      by_cases hst : c.status = CheckStatus.SUCCESS <;> simp [hst] <;> ring

/-- C1: every `UptimeStats.update` call increments `total_checks` by one and
exactly one of `successful_checks` / `failed_checks` by one (the former
exactly when the check's status is `SUCCESS`), and consequently after any
sequence of updates starting from a fresh stats object,
`total_checks = successful_checks + failed_checks`. -/
theorem C1_total_eq_success_plus_failed (url : String) (checks : List UptimeCheck)
    (s : UptimeStats) (c : UptimeCheck) :
    (s.update c).total_checks = s.total_checks + 1 ∧
    (s.update c).successful_checks =
      s.successful_checks + (if c.status = CheckStatus.SUCCESS then 1 else 0) ∧
    (s.update c).failed_checks =
      s.failed_checks + (if c.status = CheckStatus.SUCCESS then 0 else 1) ∧
    (checks.foldl UptimeStats.update (UptimeStats.fresh url)).total_checks =
      (checks.foldl UptimeStats.update (UptimeStats.fresh url)).successful_checks +
        (checks.foldl UptimeStats.update (UptimeStats.fresh url)).failed_checks :=
  ⟨update_total s c, update_successful s c, update_failed s c,
    foldl_update_total_eq url checks⟩

/-- C8: after any `update` call on any `UptimeStats` value,
`uptime_percentage = 100 * successful_checks / total_checks`, and a fresh
stats object (with `total_checks = 0`) has `uptime_percentage = 0` rather
than an undefined value or a division error. -/
theorem C8_uptime_percentage (s : UptimeStats) (c : UptimeCheck) (url : String) :
    (s.update c).uptime_percentage =
      100 * ((s.update c).successful_checks : ℚ) / ((s.update c).total_checks : ℚ) ∧
    (UptimeStats.fresh url).uptime_percentage = 0 := by
  constructor
  · unfold UptimeStats.update
    by_cases hst : c.status = CheckStatus.SUCCESS <;>
      cases hrt : c.response_time <;>
        simp [hst, hrt] <;> (try split) <;> (try simp) <;> ring
  · rfl

theorem update_avg (s : UptimeStats) (c : UptimeCheck) (r : ℚ)
    (hc : c.response_time = some r) :
    (s.update c).average_response_time =
      if s.average_response_time = 0 then r
      else (s.average_response_time * (s.total_checks : ℚ) + r)
            / ((s.total_checks : ℚ) + 1) := by
  unfold UptimeStats.update
  by_cases hst : c.status = CheckStatus.SUCCESS <;>
    simp [hst, hc] <;> split <;> split <;> simp_all

theorem update_avg_none (s : UptimeStats) (c : UptimeCheck)
    (hc : c.response_time = none) :
    (s.update c).average_response_time = s.average_response_time := by
  unfold UptimeStats.update
  by_cases hst : c.status = CheckStatus.SUCCESS <;> simp [hst, hc]

/-- The state invariant maintained by the amended C2 argument: the stored
average times the stored count recovers the sum `S` of latencies folded in so
far, the average is `0` exactly while no check has been folded in, and it is
positive afterwards (all folded latencies being positive). -/
def AvgInv (s : UptimeStats) (S : ℚ) : Prop :=
  s.average_response_time * (s.total_checks : ℚ) = S ∧
  (s.total_checks = 0 → s.average_response_time = 0) ∧
  (0 < s.total_checks → 0 < s.average_response_time)

theorem update_avg_inv (s : UptimeStats) (c : UptimeCheck) (r S : ℚ)
    (hc : c.response_time = some r) (hr : 0 < r) (hinv : AvgInv s S) :
    AvgInv (s.update c) (S + r) ∧ (s.update c).total_checks = s.total_checks + 1 := by
  obtain ⟨hS, hz, hp⟩ := hinv
  have htot := update_total s c
  have havg := update_avg s c r hc
  refine ⟨⟨?_, ?_, ?_⟩, htot⟩
  · rw [htot, havg]
    by_cases h0 : s.average_response_time = 0
    · have ht0 : s.total_checks = 0 := by
        by_contra ht
        exact absurd (hp (Nat.pos_of_ne_zero ht)) (by rw [h0]; exact lt_irrefl 0)
      have hS0 : S = 0 := by
        rw [← hS, ht0]; push_cast; ring
      rw [if_pos h0, ht0, hS0]; push_cast; ring
    · rw [if_neg h0]
      have hden : ((s.total_checks : ℚ) + 1) ≠ 0 := by positivity
      rw [hS] at *
      push_cast
      field_simp
  · rw [htot]; omega
  · intro _
    rw [havg]
    by_cases h0 : s.average_response_time = 0
    · rwa [if_pos h0]
    · rw [if_neg h0]
      have ht : 0 < s.total_checks := by
        by_contra ht
        exact h0 (hz (by omega))
      have hap : 0 < s.average_response_time := hp ht
      have : (0 : ℚ) < s.average_response_time * (s.total_checks : ℚ) + r := by
        have : (0 : ℚ) < (s.total_checks : ℚ) := by exact_mod_cast ht
        positivity
      positivity

/-- The latency carried by a check, `0` when absent (only applied to checks
known to carry one). -/
def latencyOf (c : UptimeCheck) : ℚ :=
  c.response_time.getD 0

theorem foldl_update_avg_inv (checks : List UptimeCheck) :
    ∀ (s : UptimeStats) (S : ℚ),
      (∀ c ∈ checks, ∃ r, c.response_time = some r ∧ 0 < r) →
      AvgInv s S →
      AvgInv (checks.foldl UptimeStats.update s) (S + (checks.map latencyOf).sum) ∧
        (checks.foldl UptimeStats.update s).total_checks =
          s.total_checks + checks.length := by
  induction checks with
  | nil => intro s S _ hinv; simpa using hinv
  | cons c tl ih =>
      intro s S hall hinv
      obtain ⟨r, hc, hr⟩ := hall c (List.mem_cons_self c tl)
      obtain ⟨hinv', htot'⟩ := update_avg_inv s c r S hc hr hinv
      obtain ⟨hres, hlen⟩ :=
        ih (s.update c) (S + r) (fun x hx => hall x (List.mem_cons_of_mem c hx)) hinv'
      constructor
      · have : latencyOf c = r := by simp [latencyOf, hc]
        simpa [this, add_assoc] using hres
      · simp [hlen, htot', List.length_cons]; omega

/-- A fixed concrete timestamp used by concrete check values below. -/
def d0 : Datetime :=
  ⟨2024, 1, 1, 0, 0, 0, 0⟩

/-- A successful check against url `u` carrying the given latency. -/
def succCheckWith (r : ℚ) : UptimeCheck :=
  { url := "u", status := .SUCCESS, response_time := some r, timestamp := d0 }

/-- A successful check against url `u` carrying no latency value. -/
def succCheckNoLat : UptimeCheck :=
  { url := "u", status := .SUCCESS, response_time := none, timestamp := d0 }

/-- C2, counterexample: fold the three checks (latency `10`, no latency,
latency `40`) into a fresh stats object.  The code stores average `20`
(denominator `total_checks = 3`, which counts the latency-less check),
whereas the claim demands `(10 + 40) / 2 = 25`: checks without a latency are
not excluded from the denominator. -/
theorem C2_counterexample :
    ([succCheckWith 10, succCheckNoLat, succCheckWith 40].foldl UptimeStats.update
        (UptimeStats.fresh "u")).average_response_time = 20 ∧
      (20 : ℚ) ≠ (10 + 40) / 2 := by
  constructor
  · norm_num [UptimeStats.update, UptimeStats.fresh, succCheckWith, succCheckNoLat,
      List.foldl]
  · norm_num

/-- C2, amended: when every check in the sequence carries a strictly positive
latency (so no check is skipped by the numerator and the `average == 0.0`
re-initialization branch is never re-entered), the stored average after
folding the sequence into a fresh stats object equals the sum of the
latencies divided by their number.  When some checks carry no latency, the
incremental formula divides by `total_checks`, which counts those checks, so
the claimed exclusion from the denominator does not hold. -/
theorem C2_average_all_latencies (url : String) (checks : List UptimeCheck)
    (hall : ∀ c ∈ checks, ∃ r, c.response_time = some r ∧ 0 < r)
    (hne : checks ≠ []) :
    (checks.foldl UptimeStats.update (UptimeStats.fresh url)).average_response_time =
      (checks.map latencyOf).sum / (checks.length : ℚ) := by
  obtain ⟨⟨hS, _, _⟩, hlen⟩ :=
    foldl_update_avg_inv checks (UptimeStats.fresh url) 0 hall
      ⟨by simp [UptimeStats.fresh], fun _ => rfl, by simp [UptimeStats.fresh]⟩
  have hlen' : (checks.foldl UptimeStats.update (UptimeStats.fresh url)).total_checks =
      checks.length := by simpa [UptimeStats.fresh] using hlen
  have hpos : (0 : ℚ) < (checks.length : ℚ) := by
    have : 0 < checks.length := List.length_pos.mpr hne
    exact_mod_cast this
  rw [eq_div_iff (ne_of_gt hpos), ← hlen']
  simpa using hS

/-- C2 witness: the amended theorem applied to the concrete two-check
sequence with latencies `10` and `40`, whose average is `25`. -/
theorem C2_average_all_latencies_witness :
    ([succCheckWith 10, succCheckWith 40].foldl UptimeStats.update
        (UptimeStats.fresh "u")).average_response_time =
      ([succCheckWith 10, succCheckWith 40].map latencyOf).sum / 2 :=
  C2_average_all_latencies "u" [succCheckWith 10, succCheckWith 40]
    (by
      intro c hc
      simp only [List.mem_cons, List.not_mem_nil, or_false] at hc
      rcases hc with h | h <;> subst h <;>
        exact ⟨_, rfl, by norm_num⟩)
    (List.cons_ne_nil _ _)

/-- Model of a Python value stored in a string-keyed dictionary.  The
`dtstr d` constructor stands for the ISO-8601 string `d.isoformat()`:
`datetime.isoformat` is injective and `datetime.fromisoformat` is its left
inverse (Python standard-library contract), so the string is represented by
the datetime it encodes. -/
inductive PyValue where
  | none
  | str (s : String)
  | int (n : Int)
  | float (q : ℚ)
  | bool (b : Bool)
  | dtstr (d : Datetime)
deriving DecidableEq

/-- Outcome of the `self.session.request(...)` call in
`UptimeHTTPClient.check_url`, at the interface of the `requests` library:
either a response with an integer status code arrives (after any retries the
mounted `HTTPAdapter` performed internally), or the library raises a
`requests.exceptions.RequestException` — the class covering timeouts, DNS
failures, TLS errors and refused connections — carrying a message
(`str(e)`). -/
inductive RequestOutcome where
  | response (status_code : Int)
  | requestException (msg : String)

/-- The `status_forcelist` of the `Retry` strategy configured in
`UptimeHTTPClient.__init__`: the only response statuses the mounted adapter
retries. -/
def statusForcelist : List Int :=
  [429, 500, 502, 503, 504]

/-- The `backoff_factor` of the `Retry` strategy configured in
`UptimeHTTPClient.__init__`. -/
def backoff_factor : ℚ :=
  1

/-- Matches `UptimeHTTPClient.check_url`: the request outcome and the
wall-clock readings (`start_time`, `end_time`, and the final `time.time()`
used for `timestamp`) are parameters.  Both the response branch and the
`except requests.exceptions.RequestException` branch build and return the
result dictionary of the source, with the same keys in the same order;
no other exit exists, so the function is total. -/
def check_url (url : String) (method : String)
    (headers : Option (List (String × String)))
    (data : Option (List (String × PyValue)))
    (outcome : RequestOutcome) (start_time end_time now : ℚ) :
    List (String × PyValue) :=
  match outcome with
  | .response status_code =>
      [("url", .str url),
       ("status_code", .int status_code),
       ("response_time", .float (end_time - start_time)),
       ("success", .bool (decide (200 ≤ status_code ∧ status_code < 400))),
       ("error", .none),
       ("timestamp", .float now)]
  | .requestException msg =>
      [("url", .str url),
       ("status_code", .none),
       ("response_time", .float (end_time - start_time)),
       ("success", .bool false),
       ("error", .str msg),
       ("timestamp", .float now)]

/-- C3: `check_url` is total — for every input and every outcome of the
underlying request, including transport-level faults, it returns a result
dictionary with the six keys of the source's dict literal; and on a fault the
dictionary carries `success = False` and the exception's description in
`error` (not `None`). -/
theorem C3_check_url_total (url method : String)
    (headers : Option (List (String × String)))
    (data : Option (List (String × PyValue)))
    (outcome : RequestOutcome) (start_time end_time now : ℚ) (msg : String) :
    (check_url url method headers data outcome start_time end_time now).map Prod.fst
        = ["url", "status_code", "response_time", "success", "error", "timestamp"] ∧
    (check_url url method headers data (.requestException msg)
        start_time end_time now).lookup "success" = some (PyValue.bool false) ∧
    (check_url url method headers data (.requestException msg)
        start_time end_time now).lookup "error" = some (PyValue.str msg) := by
  refine ⟨?_, ?_, ?_⟩
  · cases outcome <;> rfl
  · rfl
  · rfl

/-- Modelled from the claim, for comparison with the code (refinement-style
spec-side definition): the classification C7 asserts for a response — status
code in `[200, 400)` and matching (or in the absence of) the expected-codes
set yields `Success`, any other response yields `Failed`. -/
def claimedResponseStatus (expected : Option (List Int)) (code : Int) : CheckStatus :=
  match expected with
  | Option.none => if 200 ≤ code ∧ code < 400 then .SUCCESS else .FAILED
  | some l => if 200 ≤ code ∧ code < 400 ∧ code ∈ l then .SUCCESS else .FAILED

/-- C7, counterexample: for a response with status code `301` and expected
codes `{200}`, the claimed classification is `FAILED` (301 is not in the
expected set), but `check_url` — which takes no expected-codes input at
all — reports `success = True`.  The result also carries no four-way status:
timeouts and other `RequestException`s produce identical dictionaries up to
the message string. -/
theorem C7_counterexample :
    claimedResponseStatus (some [200]) 301 = CheckStatus.FAILED ∧
    claimedResponseStatus (some [200]) 301 ≠ CheckStatus.SUCCESS ∧
    (check_url "http://example.com" "GET" Option.none Option.none
        (.response 301) 0 1 1).lookup "success" = some (PyValue.bool true) := by
  refine ⟨by decide, by decide, rfl⟩

/-- C7, amended: `check_url` classifies outcomes two ways, not four.  A
response yields `success = True` exactly when its status code lies in
`[200, 400)` — the expected-codes set plays no role (it is not even an
input) — and carries its status code and `error = None`; every
`RequestException` (timeout, DNS, TLS, refused connection alike) yields
`success = False` with `status_code = None` and the exception's message in
`error`, with no field distinguishing a timeout from another transport
fault. -/
theorem C7_two_way_classification (url method : String)
    (headers : Option (List (String × String)))
    (data : Option (List (String × PyValue)))
    (start_time end_time now : ℚ) (code : Int) (msg : String) :
    ((check_url url method headers data (.response code)
        start_time end_time now).lookup "success" = some (PyValue.bool true) ↔
      200 ≤ code ∧ code < 400) ∧
    (check_url url method headers data (.response code)
        start_time end_time now).lookup "status_code" = some (PyValue.int code) ∧
    (check_url url method headers data (.response code)
        start_time end_time now).lookup "error" = some PyValue.none ∧
    (check_url url method headers data (.requestException msg)
        start_time end_time now).lookup "success" = some (PyValue.bool false) ∧
    (check_url url method headers data (.requestException msg)
        start_time end_time now).lookup "status_code" = some PyValue.none ∧
    (check_url url method headers data (.requestException msg)
        start_time end_time now).lookup "error" = some (PyValue.str msg) := by
  refine ⟨?_, rfl, rfl, rfl, rfl, rfl⟩
  simp [check_url, List.lookup]

/-- C9, counterexample: the dictionary `check_url` returns for a `404`
response has no `retry_count` key at all — the retries happen inside the
mounted `HTTPAdapter` and the consumed attempt count is not recorded on the
result — so the resulting check does not carry `retry_count == 0`. -/
theorem C9_counterexample :
    (check_url "http://example.com" "GET" Option.none Option.none
        (.response 404) 0 1 1).lookup "retry_count" = Option.none ∧
    ¬ (check_url "http://example.com" "GET" Option.none Option.none
        (.response 404) 0 1 1).lookup "retry_count" = some (PyValue.int 0) := by
  refine ⟨rfl, by decide⟩

/-- C9, amended: `404` is not in the adapter's retryable status list, so no
retry is attempted for it, and the result for a `404` response reports
`success = False` with status code `404`; but the consumed attempt count is
not recorded on the result — the returned dictionary has no `retry_count`
key. -/
theorem C9_404_not_retried (url method : String)
    (headers : Option (List (String × String)))
    (data : Option (List (String × PyValue)))
    (start_time end_time now : ℚ) :
    (404 : Int) ∉ statusForcelist ∧
    (check_url url method headers data (.response 404)
        start_time end_time now).lookup "success" = some (PyValue.bool false) ∧
    (check_url url method headers data (.response 404)
        start_time end_time now).lookup "status_code" = some (PyValue.int 404) ∧
    (check_url url method headers data (.response 404)
        start_time end_time now).lookup "retry_count" = Option.none := by
  refine ⟨by decide, rfl, rfl, rfl⟩

/-- A Python exception escaping a modelled function. -/
inductive PyError where
  | attributeError (msg : String)
  | exception (msg : String)
deriving DecidableEq

/-- An entry of the scheduler-internal job dictionary `self.jobs[job_id]` as
built by `UptimeScheduler.add_job`: the callable (identified by name), the
interval in minutes, the keyword arguments, and the `last_run` / `next_run`
fields, both initialized to `None`. -/
structure Job where
  func : String
  interval : Nat
  kwargs : List (String × PyValue)
  last_run : Option Datetime := Option.none
  next_run : Option Datetime := Option.none
deriving DecidableEq

/-- A job registered with the external `schedule` library by
`schedule.every(interval).minutes.do(self._execute_job, job_id)`: such a job
carries no tags (`do` attaches none). -/
structure ScheduleEntry where
  intervalMinutes : Nat
  jobId : String
  tags : List String
deriving DecidableEq

/-- State of an `UptimeScheduler` instance: the job dictionary (modelled as a
partial map from `job_id`), the jobs registered with the global `schedule`
library, and the `running` flag. -/
structure UptimeScheduler where
  jobs : String → Option Job
  scheduleEntries : List ScheduleEntry
  running : Bool

/-- A freshly constructed `UptimeScheduler()`: empty job table, nothing
registered with `schedule`, not running. -/
def UptimeScheduler.init : UptimeScheduler :=
  { jobs := fun _ => Option.none, scheduleEntries := [], running := false }

/-- Matches `UptimeScheduler.add_job`: unconditionally assigns
`self.jobs[job_id]` (overwriting any existing entry — there is no duplicate
check and no error path) and registers one more untagged job with the
`schedule` library. -/
def UptimeScheduler.add_job (st : UptimeScheduler) (job_id : String)
    (func : String) (interval : Nat) (kwargs : List (String × PyValue)) :
    UptimeScheduler :=
  { st with
    jobs := fun k =>
      if k = job_id then
        some { func := func, interval := interval, kwargs := kwargs }
      else st.jobs k,
    scheduleEntries := st.scheduleEntries ++
      [{ intervalMinutes := interval, jobId := job_id, tags := [] }] }

/-- Matches `UptimeScheduler.remove_job`: when `job_id` is present, deletes
the table entry and calls `schedule.clear(job_id)` — which removes only
`schedule` jobs tagged `job_id`, and the jobs registered by `add_job` carry
no tags; when `job_id` is absent, the guard fails and nothing at all happens
(no error is raised). -/
def UptimeScheduler.remove_job (st : UptimeScheduler) (job_id : String) :
    UptimeScheduler :=
  if (st.jobs job_id).isSome then
    { st with
      jobs := fun k => if k = job_id then Option.none else st.jobs k,
      scheduleEntries :=
        st.scheduleEntries.filter (fun e => !(e.tags.contains job_id)) }
  else st

/-- The `AttributeError` raised by evaluating `time.timedelta` in
`UptimeScheduler._execute_job`: the `time` module has no `timedelta`
attribute (the code needed `datetime.timedelta`, which it does not
import). -/
def timeTimedeltaError : PyError :=
  .attributeError "module time has no attribute timedelta"

/-- Matches `UptimeScheduler._execute_job`.  When `job_id` is absent the
guard fails and the call returns with no effect.  When it is present, the
source first assigns `job['last_run'] = datetime.now()` (the reading `now1`);
it then evaluates `job['next_run'] = datetime.now() + time.timedelta(...)`:
the left operand `datetime.now()` (the reading `now2`) is evaluated, and then
the attribute lookup `time.timedelta` raises `AttributeError`.  `next_run`
is therefore never assigned, the `try` block that would invoke
`job['func'](**job['kwargs'])` (whose outcome is the parameter `funcResult`)
is never reached — so its `except Exception` handler never runs — and the
error propagates out of `_execute_job`.  The function returns the mutated
state together with the escaping error, if any. -/
def UptimeScheduler._execute_job (st : UptimeScheduler) (job_id : String)
    (now1 now2 : Datetime) (funcResult : Except PyError Unit) :
    UptimeScheduler × Option PyError :=
  match st.jobs job_id with
  | Option.none => (st, Option.none)
  | some job =>
      let st1 : UptimeScheduler :=
        { st with
          jobs := fun k =>
            if k = job_id then some { job with last_run := some now1 }
            else st.jobs k }
      (st1, some timeTimedeltaError)

/-- The scheduler state holding the single job `check-a` with a 5-minute
interval, as registered by `add_job`. -/
def schedWithJob : UptimeScheduler :=
  UptimeScheduler.init.add_job "check-a" "run_check" 5 []

/-- C4: evaluation of the code at the failing input.  Executing the
registered job `check-a` at any times and with any would-be function outcome:
the call raises `AttributeError` (`time.timedelta` does not exist),
`last_run` is set to the dispatch-time reading `now1` taken before any
function invocation, `next_run` remains `None` — so `next_run = last_run +
interval` never holds after an execution — and the resulting state does not
depend on the function's outcome, i.e. the function's completion plays no
role. -/
theorem C4_next_run_never_armed (t1 t2 : Datetime) (funcResult : Except PyError Unit) :
    (schedWithJob._execute_job "check-a" t1 t2 funcResult).2 = some timeTimedeltaError ∧
    ((schedWithJob._execute_job "check-a" t1 t2 funcResult).1.jobs "check-a").map
        Job.last_run = some (some t1) ∧
    ((schedWithJob._execute_job "check-a" t1 t2 funcResult).1.jobs "check-a").map
        Job.next_run = some Option.none ∧
    (schedWithJob._execute_job "check-a" t1 t2 funcResult).1 =
      (schedWithJob._execute_job "check-a" t1 t2 (Except.ok ())).1 := by
  refine ⟨?_, ?_, ?_, ?_⟩ <;>
    simp [UptimeScheduler._execute_job, schedWithJob, UptimeScheduler.add_job,
      UptimeScheduler.init]

/-- C5: evaluation of the code at the failing input.  For every scheduler
state and every registered `job_id`, `_execute_job` lets an error escape —
the `AttributeError` from `time.timedelta`, raised before the `try` block is
reached — while for an absent `job_id` nothing escapes.  A fault therefore
propagates out of the job-execution boundary on every execution of every
job. -/
theorem C5_error_escapes_boundary (st : UptimeScheduler) (job_id : String)
    (now1 now2 : Datetime) (funcResult : Except PyError Unit) :
    (st._execute_job job_id now1 now2 funcResult).2 =
      if (st.jobs job_id).isSome then some timeTimedeltaError else Option.none := by
  cases h : st.jobs job_id <;> simp [UptimeScheduler._execute_job, h]

/-- C6, counterexample: registering `a` a second time does not fail — the
operation has no error outlet at all — and it does not leave the existing
entry unchanged: after the two `add_job` calls the table holds the second
job (interval 7), not the first (interval 5).  And `remove_job` of an id
that was never registered returns with the state identical, a silent
no-op. -/
theorem C6_counterexample :
    ((UptimeScheduler.init.add_job "a" "run_check" 5 []).add_job
        "a" "run_check_b" 7 []).jobs "a"
        = some { func := "run_check_b", interval := 7, kwargs := [] } ∧
    ¬ ((UptimeScheduler.init.add_job "a" "run_check" 5 []).add_job
        "a" "run_check_b" 7 []).jobs "a"
        = some { func := "run_check", interval := 5, kwargs := [] } ∧
    UptimeScheduler.init.remove_job "missing" = UptimeScheduler.init := by
  refine ⟨by simp [UptimeScheduler.add_job], by simp [UptimeScheduler.add_job], rfl⟩

/-- C6, amended: `add_job` with a `job_id` already present does not fail and
does not preserve the existing entry — it silently replaces it with the new
job (and registers yet another `schedule` entry); `remove_job` with an absent
`job_id` does not fail — it silently leaves the scheduler state exactly as it
was. -/
theorem C6_silent_overwrite_and_noop (st : UptimeScheduler) (job_id : String)
    (f1 f2 : String) (i1 i2 : Nat) (k1 k2 : List (String × PyValue))
    (job_id2 : String) (habs : st.jobs job_id2 = Option.none) :
    ((st.add_job job_id f1 i1 k1).add_job job_id f2 i2 k2).jobs job_id
        = some { func := f2, interval := i2, kwargs := k2 } ∧
    st.remove_job job_id2 = st := by
  constructor
  · simp [UptimeScheduler.add_job]
  · simp [UptimeScheduler.remove_job, habs]

/-- C6 witness: the amended theorem applied to the fresh scheduler, with the
hypothesis `jobs "missing" = none` discharged by evaluation. -/
theorem C6_silent_overwrite_and_noop_witness :
    UptimeScheduler.init.jobs "missing" = Option.none ∧
    (((UptimeScheduler.init.add_job "a" "f" 5 []).add_job "a" "g" 7 []).jobs "a"
        = some { func := "g", interval := 7, kwargs := [] } ∧
      UptimeScheduler.init.remove_job "missing" = UptimeScheduler.init) :=
  ⟨rfl, C6_silent_overwrite_and_noop UptimeScheduler.init "a" "f" "g" 5 7 [] []
    "missing" rfl⟩

/-- An optional Python int as stored in a result dictionary (`None` when
absent). -/
def pyOptInt : Option Int → PyValue
  | Option.none => .none
  | some n => .int n

/-- An optional Python float as stored in a result dictionary. -/
def pyOptFloat : Option ℚ → PyValue
  | Option.none => .none
  | some q => .float q

/-- An optional Python string as stored in a result dictionary. -/
def pyOptStr : Option String → PyValue
  | Option.none => .none
  | some s => .str s

/-- Matches `UptimeCheck.to_dict`: the dictionary literal of the source, with
`status` serialized through `.value` and `timestamp` through
`.isoformat()`. -/
def UptimeCheck.to_dict (c : UptimeCheck) : List (String × PyValue) :=
  [("url", .str c.url),
   ("status", .str (statusValue c.status)),
   ("status_code", pyOptInt c.status_code),
   ("response_time", pyOptFloat c.response_time),
   ("error_message", pyOptStr c.error_message),
   ("timestamp", .dtstr c.timestamp),
   ("retry_count", .int c.retry_count)]

/-- Reading a string-typed value; any other value is a decode failure. -/
def asStr : PyValue → Option String
  | .str s => some s
  | _ => Option.none

/-- Reading an int-typed value; any other value is a decode failure. -/
def asInt : PyValue → Option Int
  | .int n => some n
  | _ => Option.none

/-- Reading an ISO-formatted datetime string, as
`datetime.fromisoformat(data['timestamp'])` does; a non-datetime string or a
value of another type raises `ValueError` / `TypeError`, modelled as
failure. -/
def asDatetime : PyValue → Option Datetime
  | .dtstr d => some d
  | _ => Option.none

/-- Reading an `Optional[int]`-typed value. -/
def asOptInt : PyValue → Option (Option Int)
  | .none => some Option.none
  | .int n => some (some n)
  | _ => Option.none

/-- Reading an `Optional[float]`-typed value. -/
def asOptFloat : PyValue → Option (Option ℚ)
  | .none => some Option.none
  | .float q => some (some q)
  | _ => Option.none

/-- Reading an `Optional[str]`-typed value. -/
def asOptStr : PyValue → Option (Option String)
  | .none => some Option.none
  | .str s => some (some s)
  | _ => Option.none

/-- Matches Python's `data.get(key, default)` on a dictionary:
the stored value when the key is present, the default otherwise. -/
def dictGet (data : List (String × PyValue)) (key : String) (default : PyValue) :
    PyValue :=
  (data.lookup key).getD default

/-- Matches `UptimeCheck.from_dict`.  `data['url']`, `data['status']` and
`data['timestamp']` raise `KeyError` when absent (modelled as failure);
`CheckStatus(data['status'])` raises `ValueError` on a non-member string;
the remaining fields go through `data.get`, with `None` (and `0` for
`retry_count`) as defaults.  A field carrying a value of an unexpected type
is modelled as a decode failure, where CPython would build an ill-typed
record; on every dictionary produced by `to_dict` all fields carry their
declared types, so this difference is invisible to the round-trip. -/
def UptimeCheck.from_dict (data : List (String × PyValue)) : Option UptimeCheck := do
  let url ← asStr (← data.lookup "url")
  let status ← checkStatusOfValue (← asStr (← data.lookup "status"))
  let status_code ← asOptInt (dictGet data "status_code" PyValue.none)
  let response_time ← asOptFloat (dictGet data "response_time" PyValue.none)
  let error_message ← asOptStr (dictGet data "error_message" PyValue.none)
  let timestamp ← asDatetime (← data.lookup "timestamp")
  let retry_count ← asInt (dictGet data "retry_count" (PyValue.int 0))
  pure { url := url, status := status, status_code := status_code,
         response_time := response_time, error_message := error_message,
         timestamp := timestamp, retry_count := retry_count }

/-- C10: serialization round-trip — for every `UptimeCheck` value `c`,
`from_dict (to_dict c)` recovers every field of `c` exactly. -/
theorem C10_to_dict_from_dict_round_trip (c : UptimeCheck) :
    UptimeCheck.from_dict c.to_dict = some c := by
  cases c with
  | mk url status status_code response_time error_message timestamp retry_count =>
      cases status <;> cases status_code <;> cases response_time <;>
        cases error_message <;> rfl

end Uptimebot
